import Mathlib

/-!
Verification development for the crypto-fortress-bot repository.

The embedding models, over exact rational arithmetic:
  * `Fortress` — `src/fortress_main.py` (the hybrid controller: Tokyo scalp
    scanner, global trend scanner, and the unified position manager) together
    with `src/scalper_strategy.py` (signal construction from computed
    indicator values);
  * `ScalperV2` — `src/scalping_bot_v2/main.py` (the fast monitoring loop,
    the scan loop and the reporting loop, all gated by the shared `running`
    flag).

Indicator computation, exchange connectivity and the configuration module are
external to the repository's `src/` tree; where a definition depends on them
it is modelled from the spec and marked as such in its doc comment.
-/

/-- Side of a position, `pos['side']` in the source: LONG or SHORT. -/
inductive Side where
  | LONG
  | SHORT
deriving DecidableEq

/-- Strategy tag stored on a ledger entry. `pos.get('strategy', 'UNKNOWN')`
reads `UNKNOWN` when the field was never written. -/
inductive StrategyTag where
  | TOKYO_SCALP
  | GLOBAL_TREND
  | UNKNOWN
deriving DecidableEq

/-- Close reasons, one constructor per distinct reason string passed to
`market.close_position` in the source. -/
inductive CloseReason where
  | scalpTimeLimit   -- fortress: "TIME LIMIT (Scalp Stale)"
  | scalpTP          -- fortress: "SCALP TP (+0.6%)"
  | scalpSL          -- fortress: "SCALP SL (-0.4%)"
  | stopLoss         -- fortress trend: "STOP LOSS"
  | takeProfitFull   -- fortress trend: "TAKE PROFIT (Full Base)"
  | stopLossRoi      -- v2: "STOP LOSS (...)"
  | takeProfitRoi    -- v2: "TAKE PROFIT (...)"
  | trailingStop     -- v2: "TRAILING STOP (...)"
  | stagnation       -- v2: "STAGNATION (...)"
  | maxTimeLimit     -- v2: "MAX TIME LIMIT"
deriving DecidableEq

namespace Fortress

/-- A ledger entry of `self.market.positions` as used by `fortress_main.py`:
fields read or written by `manage_positions`, `scan_tokyo` and `scan_global`.
`pos.get('partial_taken', False)` and `pos.get('be_locked', False)` default to
`false`, so the flags are plain `Bool` fields that start `false` at open. -/
structure Position where
  side : Side
  entry_price : ℚ
  sl : ℚ
  tp : ℚ
  amount : ℚ
  strategy : StrategyTag
  partial_taken : Bool
  be_locked : Bool
deriving DecidableEq

/-- `pnl_pct` of `manage_positions`: `(price-entry)/entry` for LONG,
`(entry-price)/entry` for SHORT. -/
def pnl_pct (side : Side) (entry price : ℚ) : ℚ :=
  match side with
  | .LONG => (price - entry) / entry
  | .SHORT => (entry - price) / entry

/-- Outcome of one `manage_positions` iteration for one position: either a
full close (the entry leaves the ledger) or the entry kept with its possibly
mutated fields. -/
inductive ManageOutcome where
  | fullClose (reason : CloseReason)
  | keep (pos : Position)
deriving DecidableEq

/-- Scalp branch of `manage_positions` (strategy `TOKYO_SCALP`): time cap at
60 minutes, then fixed take profit at +0.6 percent, then fixed stop at
-0.4 percent of PnL; otherwise the position is untouched. -/
def scalpManage (pos : Position) (price durationMin : ℚ) : ManageOutcome :=
  if durationMin > 60 then .fullClose .scalpTimeLimit
  else if pnl_pct pos.side pos.entry_price price ≥ 6/1000 then .fullClose .scalpTP
  else if pnl_pct pos.side pos.entry_price price ≤ -(4/1000) then .fullClose .scalpSL
  else .keep pos

/-- Hard stop test of the trend branch: LONG closes when `price <= sl`,
SHORT when `price >= sl`. -/
def stopHit (pos : Position) (price : ℚ) : Bool :=
  match pos.side with
  | .LONG => decide (price ≤ pos.sl)
  | .SHORT => decide (pos.sl ≤ price)

/-- Hard target test of the trend branch: LONG closes when `price >= tp`,
SHORT when `price <= tp`. -/
def tpHit (pos : Position) (price : ℚ) : Bool :=
  match pos.side with
  | .LONG => decide (pos.tp ≤ price)
  | .SHORT => decide (price ≤ pos.tp)

/-- Harvester step of the trend branch: when `partial_taken` is unset and PnL
reaches +1.2 percent, close half the amount, set both flags and move the stop
to the entry price. The mutation mirrors `pos['amount'] -= qty_close` with
`qty_close = pos['amount'] * 0.5`. -/
def harvestStep (pos : Position) (price : ℚ) : Position :=
  if pos.partial_taken = false ∧ 12/1000 ≤ pnl_pct pos.side pos.entry_price price then
    { pos with
        amount := pos.amount - pos.amount * (1/2),
        partial_taken := true,
        be_locked := true,
        sl := pos.entry_price }
  else pos

/-- Trailing step of the trend branch: only when `be_locked`; the candidate
stop sits one percent of the current price behind it and replaces `sl` only
when strictly tighter. -/
def trailStep (pos : Position) (price : ℚ) : Position :=
  if pos.be_locked then
    match pos.side with
    | .LONG =>
        if price - price * (1/100) > pos.sl then
          { pos with sl := price - price * (1/100) } else pos
    | .SHORT =>
        if price + price * (1/100) < pos.sl then
          { pos with sl := price + price * (1/100) } else pos
  else pos

/-- Trend branch of `manage_positions`: hard stop, hard target, then the
harvester and the trailing stop applied in that order on the same mutable
entry within the tick. -/
def trendManage (pos : Position) (price : ℚ) : ManageOutcome :=
  if stopHit pos price then .fullClose .stopLoss
  else if tpHit pos price then .fullClose .takeProfitFull
  else .keep (trailStep (harvestStep pos price) price)

/-- One `manage_positions` iteration for one position: skip on the zero price
sentinel, then dispatch on the strategy tag — `TOKYO_SCALP` to the scalp
branch, everything else (including `UNKNOWN`, which the code rewrites to
`GLOBAL_TREND`) to the trend branch. -/
def managePosition (pos : Position) (price durationMin : ℚ) : ManageOutcome :=
  if price = 0 then .keep pos
  else if pos.strategy = StrategyTag.TOKYO_SCALP then scalpManage pos price durationMin
  else trendManage pos price

/-- Signal dictionary returned by `ScalperStrategy.analyze`
(`scalper_strategy.py`): direction, score, entry, fixed take profit and stop,
and the strategy tag carried inside the dictionary. -/
structure Signal where
  direction : Side
  score : ℚ
  entry_price : ℚ
  tp : ℚ
  sl : ℚ
  strategy : StrategyTag
deriving DecidableEq

/-- Signal construction of `ScalperStrategy.analyze` given the already
computed latest indicator values (RSI and Bollinger bands are produced by
external indicator code over the candle history; the branch structure,
thresholds, scores and the fixed ±0.6 / ±0.4 percent target and stop factors
are exactly those of `scalper_strategy.py` lines 50-87). -/
def analyze (current_price current_rsi current_upper current_lower : ℚ) : Option Signal :=
  if current_price ≤ current_lower ∧ current_rsi < 30 then
    some { direction := .LONG,
           score := if current_rsi < 25 then 95 else 85,
           entry_price := current_price,
           tp := current_price * (1006/1000),
           sl := current_price * (996/1000),
           strategy := .TOKYO_SCALP }
  else if current_price ≥ current_upper ∧ current_rsi > 70 then
    some { direction := .SHORT,
           score := if current_rsi > 75 then 95 else 85,
           entry_price := current_price,
           tp := current_price * (994/1000),
           sl := current_price * (1004/1000),
           strategy := .TOKYO_SCALP }
  else none

/-- Sizing of `scan_tokyo` (`fortress_main.py` lines 115-122): risk amount is
0.5 percent of balance; a zero stop distance rejects the candidate
(`continue`, hence `none`); otherwise the raw size is capped at 20 percent of
balance. -/
def sizeTokyo (balance entry sl : ℚ) : Option ℚ :=
  let risk_amt := balance * (5/1000)
  let stop_dist_pct := |entry - sl| / entry
  if stop_dist_pct = 0 then none
  else some (min (risk_amt / stop_dist_pct) (balance * (2/10)))

/-- Sizing of `scan_global` (`fortress_main.py` lines 174-178): risk amount is
`RISK_PER_TRADE_PCT` percent of balance and the raw quotient is used with no
exposure cap; there is no zero test, so a zero stop distance evaluates
`risk_amt / 0`, a `ZeroDivisionError` in the source, modelled as `error`. -/
def sizeGlobal (balance entry sl risk_per_trade_pct : ℚ) : Except Unit ℚ :=
  let risk_amt := balance * (risk_per_trade_pct / 100)
  let stop_dist := |entry - sl| / entry
  if stop_dist = 0 then .error ()
  else .ok (risk_amt / stop_dist)

/-- Modelled from the spec: `MarketData.open_position` (module `market_data`,
not under `src/`) is the MarketDataProvider open call
`openPosition(symbol, side, quoteSize, stop, target)`; it receives no
strategy tag, so the ledger entry it inserts carries none, and a tagless
entry reads back as `UNKNOWN` through `pos.get('strategy', 'UNKNOWN')`.
Flags start unset and the full quote size is the open amount. -/
def open_position (side : Side) (entry sl tp amount : ℚ) : Position :=
  { side := side, entry_price := entry, sl := sl, tp := tp, amount := amount,
    strategy := .UNKNOWN, partial_taken := false, be_locked := false }

/-- Ledger entry produced by the `scan_tokyo` open path
(`fortress_main.py` lines 124-130): the open call with the signal's stop and
target; `scan_tokyo` performs no strategy tagging afterwards. -/
def scanTokyoInsert (sig : Signal) (size : ℚ) : Position :=
  open_position sig.direction sig.entry_price sig.sl sig.tp size

/-- Ledger entry produced by the `scan_global` open path
(`fortress_main.py` lines 180-189): the open call followed by
`positions[sym]['strategy'] = 'GLOBAL_TREND'`. -/
def scanGlobalInsert (direction : Side) (entry sl tp size : ℚ) : Position :=
  { open_position direction entry sl tp size with strategy := .GLOBAL_TREND }

/-- Number of opens performed by one fortress scanner pass
(`scan_tokyo` / `scan_global`), abstracting each candidate to whether it is
accepted (signal found and all filters passed): on an accept the scanner
opens, decrements `slots`, and breaks as soon as `slots` reaches zero. -/
def scanOpens (slots : ℤ) (accepts : List Bool) : ℕ :=
  match accepts with
  | [] => 0
  | a :: rest =>
      if a then
        if slots - 1 = 0 then 1 else 1 + scanOpens (slots - 1) rest
      else scanOpens slots rest

/-- Slot gate of `FortressBot.tick` (`fortress_main.py` lines 80-87):
`slots = MAX_OPEN_POSITIONS - len(positions)`; a scanner runs only when
`slots > 0`. Returns the number of positions opened by the tick. -/
def tickOpens (maxPos openCount : ℕ) (accepts : List Bool) : ℕ :=
  let slots : ℤ := (maxPos : ℤ) - (openCount : ℤ)
  if slots > 0 then scanOpens slots accepts else 0

/-- One managed tick lifted to the option of an open position: a full close
removes the entry from the ledger (`none`); otherwise the mutated entry stays.
The tick input pairs the fetched price with the elapsed minutes. -/
def stepOpt (op : Option Position) (t : ℚ × ℚ) : Option Position :=
  match op with
  | none => none
  | some pos =>
      match managePosition pos t.1 t.2 with
      | .fullClose _ => none
      | .keep p => some p

/-- A run of successive `manage_positions` ticks over one position. -/
def runTicks (op : Option Position) (ts : List (ℚ × ℚ)) : Option Position :=
  ts.foldl stepOpt op

/-- Favorable stop ordering for a side: for a LONG a later stop is favorable
when it is at least the earlier one, for a SHORT when it is at most. -/
def slFav (s : Side) (a b : ℚ) : Prop :=
  match s with
  | Side.LONG => a ≤ b
  | Side.SHORT => b ≤ a

/-- The flag discipline the code maintains: `be_locked` is only ever set by
the harvester, together with `partial_taken`. -/
def flagsWF (pos : Position) : Prop :=
  pos.be_locked = true → pos.partial_taken = true

end Fortress

namespace ScalperV2

/-- Modelled from the spec: the configuration surface consumed by
`scalping_bot_v2/main.py` (module `config`, not under `src/`) — maximum open
positions, leverage, the ROI stop/target/trailing thresholds, the hard hold
cap, minimum signal score, per-trade capital fraction and the daily profit
target. -/
structure V2Config where
  LEVERAGE : ℚ
  STOP_LOSS_ROI : ℚ
  TAKE_PROFIT_ROI : ℚ
  USE_TRAILING : Bool
  TRAILING_ACTIVATION_ROI : ℚ
  TRAILING_DISTANCE_ROI : ℚ
  MAX_HOLD_SECONDS : ℚ
  MAX_OPEN_POSITIONS : ℕ
  MIN_SCORE : ℚ
  CAPITAL_PER_TRADE_PCT : ℚ
  DAILY_PROFIT_TARGET_PCT : ℚ
deriving DecidableEq

/-- A ledger entry as used by the v2 `fast_loop`: side, entry price, amount
and the running `max_roi` high-water mark. -/
structure V2Position where
  side : Side
  entry_price : ℚ
  amount : ℚ
  max_roi : ℚ
deriving DecidableEq

/-- Leveraged ROI of the v2 `fast_loop`: signed price move relative to entry,
times leverage, times 100. -/
def v2roi (cfg : V2Config) (side : Side) (entry price : ℚ) : ℚ :=
  (match side with
   | Side.LONG => (price - entry) / entry
   | Side.SHORT => (entry - price) / entry) * cfg.LEVERAGE * 100

/-- High-water-mark update `if roi > pos['max_roi']: pos['max_roi'] = roi`. -/
def v2newMax (maxRoi roi : ℚ) : ℚ :=
  if roi > maxRoi then roi else maxRoi

/-- Trailing-stop trigger of `fast_loop` rule 3: trailing enabled, the
high-water mark reached activation, and ROI fell more than the trailing
distance below it. -/
def trailCond (cfg : V2Config) (maxRoi roi : ℚ) : Bool :=
  cfg.USE_TRAILING && decide (maxRoi ≥ cfg.TRAILING_ACTIVATION_ROI)
    && decide (roi < maxRoi - cfg.TRAILING_DISTANCE_ROI)

/-- Outcome of one `fast_loop` iteration for one position. -/
inductive V2Outcome where
  | closed (reason : CloseReason)
  | kept (pos : V2Position)
deriving DecidableEq

/-- One `fast_loop` iteration for one position
(`scalping_bot_v2/main.py` lines 88-127): skip on the zero price sentinel;
update `max_roi`; then, in source order, ROI stop loss, ROI take profit,
trailing stop, stagnation (held over 600 seconds with ROI below 2), and the
hard `MAX_HOLD_SECONDS` time limit. -/
def fastStep (cfg : V2Config) (pos : V2Position) (price duration_sec : ℚ) : V2Outcome :=
  if price = 0 then .kept pos
  else
    let roi := v2roi cfg pos.side pos.entry_price price
    let maxRoi := v2newMax pos.max_roi roi
    if roi ≤ cfg.STOP_LOSS_ROI then .closed .stopLossRoi
    else if roi ≥ cfg.TAKE_PROFIT_ROI then .closed .takeProfitRoi
    else if trailCond cfg maxRoi roi then .closed .trailingStop
    else if duration_sec > 600 ∧ roi < 2 then .closed .stagnation
    else if duration_sec > cfg.MAX_HOLD_SECONDS then .closed .maxTimeLimit
    else .kept { pos with max_roi := maxRoi }

/-- The reporting loop's daily-PnL check
(`scalping_bot_v2/main.py` lines 74-77): when total PnL reaches the daily
target it sets the shared `self.running` flag to `false`; otherwise the flag
is unchanged. -/
def reporting_update_running (cfg : V2Config) (current_pnl_pct : ℚ) (running : Bool) : Bool :=
  if current_pnl_pct ≥ cfg.DAILY_PROFIT_TARGET_PCT then false else running

/-- One pass of the `fast_loop` over the ledger, as gated by
`while self.running`: with the flag down the loop body never runs, so no
close is issued and every position is left untouched; with the flag up each
position goes through `fastStep` with its fetched price and its elapsed
duration. -/
def fast_loop_tick (cfg : V2Config) (running : Bool)
    (inputs : List (V2Position × ℚ × ℚ)) : List V2Outcome :=
  if running then inputs.map (fun i => fastStep cfg i.1 i.2.1 i.2.2)
  else inputs.map (fun i => V2Outcome.kept i.1)

/-- A scan candidate of `scan_loop_tick`, abstracted to whether the analysis
produced a signal and its score. -/
structure V2Candidate where
  hasSignal : Bool
  score : ℚ
deriving DecidableEq

/-- Per-trade capital of `scan_loop_tick` (lines 188-189):
`balance * CAPITAL_PER_TRADE_PCT / 100`, raised to the 6.0 minimum. -/
def v2amount (cfg : V2Config) (balance : ℚ) : ℚ :=
  let a := balance * (cfg.CAPITAL_PER_TRADE_PCT / 100)
  if a < 6 then 6 else a

/-- Number of opens performed by one `scan_loop_tick`
(`scalping_bot_v2/main.py` lines 138-191): the position count is compared to
`MAX_OPEN_POSITIONS` only once, at the top of the tick; afterwards every
candidate whose signal clears `MIN_SCORE` and whose amount fits the balance
is opened, with no slot decrement and no early stop. -/
def v2ScanOpens (cfg : V2Config) (openCount : ℕ) (cands : List V2Candidate)
    (balance : ℚ) : ℕ :=
  if cfg.MAX_OPEN_POSITIONS ≤ openCount then 0
  else (cands.filter (fun c =>
    c.hasSignal && decide (c.score ≥ cfg.MIN_SCORE)
      && decide (¬ v2amount cfg balance > balance))).length

/-- The scan loop is gated by the same `while self.running` flag: a stopped
bot performs no opens. -/
def scan_loop_opens (cfg : V2Config) (running : Bool) (openCount : ℕ)
    (cands : List V2Candidate) (balance : ℚ) : ℕ :=
  if running then v2ScanOpens cfg openCount cands balance else 0

/-- Stop price assigned at open by `scan_loop_tick` (lines 178-186):
`move_pct = |STOP_LOSS_ROI / LEVERAGE / 100|` below the close for a LONG,
above it for a SHORT. -/
def scanSl (cfg : V2Config) (side : Side) (price : ℚ) : ℚ :=
  let move_pct := |cfg.STOP_LOSS_ROI / cfg.LEVERAGE / 100|
  match side with
  | Side.LONG => price * (1 - move_pct)
  | Side.SHORT => price * (1 + move_pct)

/-- Target price assigned at open by `scan_loop_tick` (lines 181-186):
`|TAKE_PROFIT_ROI| / LEVERAGE / 100` above the close for a LONG, below it for
a SHORT. -/
def scanTp (cfg : V2Config) (side : Side) (price : ℚ) : ℚ :=
  let tp_move := |cfg.TAKE_PROFIT_ROI| / cfg.LEVERAGE / 100
  match side with
  | Side.LONG => price * (1 + tp_move)
  | Side.SHORT => price * (1 - tp_move)

/-- Modelled from the spec: a concrete configuration instance (the `config`
module is not under `src/`) with values consistent with the spec's
configuration surface, used to evaluate the model on closed inputs. -/
def cfg0 : V2Config :=
  { LEVERAGE := 10, STOP_LOSS_ROI := -5, TAKE_PROFIT_ROI := 10,
    USE_TRAILING := true, TRAILING_ACTIVATION_ROI := 5,
    TRAILING_DISTANCE_ROI := 2, MAX_HOLD_SECONDS := 3600,
    MAX_OPEN_POSITIONS := 3, MIN_SCORE := 70, CAPITAL_PER_TRADE_PCT := 10,
    DAILY_PROFIT_TARGET_PCT := 5 }

end ScalperV2

open Fortress ScalperV2

/-! Concrete fixtures used by the claim theorems. -/

/-- The scalp signal `analyze` returns on latest close 100, RSI 20, upper
band 120, lower band 100: a LONG with entry 100, target 100.6, stop 99.6. -/
def c1sig : Fortress.Signal :=
  { direction := .LONG, score := 95, entry_price := 100,
    tp := 100 * (1006/1000), sl := 100 * (996/1000),
    strategy := .TOKYO_SCALP }

/-- The ledger entry the `scan_tokyo` open path produces from `c1sig` at the
size `sizeTokyo` computes for balance 10000. -/
def c1pos : Fortress.Position := Fortress.scanTokyoInsert c1sig 2000

/-- A v2 LONG position at entry 100 that at price 94 sits far past the ROI
stop (leveraged ROI -60). -/
def c2pos : ScalperV2.V2Position :=
  { side := .LONG, entry_price := 100, amount := 10, max_roi := 0 }

/-- A v2 LONG position at entry 100 held 4000 seconds at an unchanged price:
both the stagnation condition and the hard time limit hold, neither ROI stop
nor ROI target is crossed. -/
def c3pos : ScalperV2.V2Position :=
  { side := .LONG, entry_price := 100, amount := 1, max_roi := 0 }

/-- The modelled configuration with the position cap lowered to one slot. -/
def cfg1 : ScalperV2.V2Config := { ScalperV2.cfg0 with MAX_OPEN_POSITIONS := 1 }

/-- A v2 scan candidate whose signal clears the minimum score. -/
def c4cand : ScalperV2.V2Candidate := { hasSignal := true, score := 80 }

/-- A fortress trend position about to harvest: LONG, entry 100, stop 95,
target 110, amount 10, flags unset. -/
def c7pos : Fortress.Position :=
  { side := .LONG, entry_price := 100, sl := 95, tp := 110, amount := 10,
    strategy := .GLOBAL_TREND, partial_taken := false, be_locked := false }

/-- `c7pos` at the end of the harvesting tick at price 102: amount halved,
both flags set, and the stop trailed to 100.98 = 5049/50, past the entry. -/
def c7pos2 : Fortress.Position :=
  { side := .LONG, entry_price := 100, sl := 5049/50, tp := 110, amount := 5,
    strategy := .GLOBAL_TREND, partial_taken := true, be_locked := true }

/-- A SHORT fortress trend position about to harvest: entry 100, stop 105,
target 90, amount 8, flags unset. -/
def c7wpos : Fortress.Position :=
  { side := .SHORT, entry_price := 100, sl := 105, tp := 90, amount := 8,
    strategy := .GLOBAL_TREND, partial_taken := false, be_locked := false }

/-- A harvested, breakeven-locked fortress trend position: LONG, entry 100,
stop already at 100. -/
def c8pos : Fortress.Position :=
  { side := .LONG, entry_price := 100, sl := 100, tp := 200, amount := 5,
    strategy := .GLOBAL_TREND, partial_taken := true, be_locked := true }

/-- `c8pos` after one tick at price 103: the trailing stop moved to 101.97. -/
def c8pos2 : Fortress.Position := { c8pos with sl := 10197/100 }

/-- The scalp signal `analyze` returns on latest close 100, RSI 80, upper
band 100, lower band 90: a SHORT with entry 100, target 99.4, stop 100.4. -/
def c9sig : Fortress.Signal :=
  { direction := .SHORT, score := 95, entry_price := 100,
    tp := 100 * (994/1000), sl := 100 * (1004/1000),
    strategy := .TOKYO_SCALP }

/-! Claim theorems. -/

/-- C1. The claim says a position opened by the Tokyo scalp scanner is
managed by the scalp rules. On the code it is not: `scan_tokyo` opens through
`market.open_position` and never writes a `strategy` tag (only `scan_global`
tags its opens), so the entry reads back `UNKNOWN` and `manage_positions`
routes it to the trend branch. At price 100.5 after 70 minutes the scalp
rules would close it at the 60-minute scalp time cap, but the manager keeps
it open; the same entry explicitly tagged `TOKYO_SCALP` is indeed closed with
the scalp time-limit reason. -/
theorem C1_scalp_open_untagged :
    Fortress.analyze 100 20 120 100 = some c1sig ∧
    Fortress.sizeTokyo 10000 100 c1sig.sl = some 2000 ∧
    c1pos.strategy = StrategyTag.UNKNOWN ∧
    Fortress.managePosition c1pos (201/2) 70 = .keep c1pos ∧
    Fortress.managePosition { c1pos with strategy := .TOKYO_SCALP } (201/2) 70
      = .fullClose .scalpTimeLimit := by
  refine ⟨?_, ?_, rfl, ?_, ?_⟩
  · norm_num [Fortress.analyze, c1sig]
  · simp only [Fortress.sizeTokyo, c1sig]
    rw [show |(100:ℚ) - 100 * (996/1000)| = 2/5 from by norm_num]
    norm_num
  · simp only [Fortress.managePosition, Fortress.trendManage, Fortress.stopHit,
      Fortress.tpHit, Fortress.harvestStep, Fortress.trailStep, Fortress.pnl_pct,
      c1pos, c1sig, Fortress.scanTokyoInsert, Fortress.open_position]
    norm_num
    exact fun h => StrategyTag.noConfusion h
  · simp only [Fortress.managePosition, Fortress.scalpManage,
      c1pos, c1sig, Fortress.scanTokyoInsert, Fortress.open_position]
    norm_num

/-- C5. The claim says a zero stop distance is rejected without error on both
scan paths. The scalp path does reject (`continue`): `sizeTokyo` is `none` at
`sl = entry`. The trend path has no guard: `sizeGlobal` reaches the division
with a zero divisor, a `ZeroDivisionError` in the source, modelled as the
error branch. -/
theorem C5_zero_stop_distance :
    Fortress.sizeTokyo 10000 100 100 = none ∧
    Fortress.sizeGlobal 10000 100 100 3 = Except.error () := by
  constructor
  · simp only [Fortress.sizeTokyo]
    norm_num
  · simp only [Fortress.sizeGlobal]
    norm_num

/-- C2 counterexample. The claim says the daily-PnL guard suspends only the
scan/open path while the fast loop's exits keep executing unconditionally. On
the code the guard sets the shared `running` flag to `false`, and the fast
loop is gated by the same flag: with a position sitting far past its ROI stop
(leveraged ROI -60, stop at -5), the exit rule would fire (`fastStep`
closes), yet the gated loop pass issues no close and leaves the position
untouched. -/
theorem C2_guard_stops_fast_loop :
    ScalperV2.reporting_update_running ScalperV2.cfg0 6 true = false ∧
    ScalperV2.fastStep ScalperV2.cfg0 c2pos 94 30 = .closed .stopLossRoi ∧
    ScalperV2.fast_loop_tick ScalperV2.cfg0
        (ScalperV2.reporting_update_running ScalperV2.cfg0 6 true)
        [(c2pos, 94, 30)]
      = [.kept c2pos] := by
  refine ⟨?_, ?_, ?_⟩
  · norm_num [ScalperV2.reporting_update_running, ScalperV2.cfg0]
  · simp only [ScalperV2.fastStep, ScalperV2.v2roi, ScalperV2.v2newMax,
      ScalperV2.trailCond, ScalperV2.cfg0, c2pos]
    norm_num
  · rw [show ScalperV2.reporting_update_running ScalperV2.cfg0 6 true = false from by
      norm_num [ScalperV2.reporting_update_running, ScalperV2.cfg0]]
    simp [ScalperV2.fast_loop_tick]

/-- C2 amended. When the reporting loop's daily-PnL check fires it halts the
whole bot, not just the open path: the shared `running` flag goes to `false`,
after which the fast monitoring loop performs no closes and leaves every
position unchanged, and the scan loop opens nothing. Exits execute only while
`running` is `true`. -/
theorem C2_guard_halts_all_loops (cfg : ScalperV2.V2Config) (pnl : ℚ)
    (running : Bool) (inputs : List (ScalperV2.V2Position × ℚ × ℚ))
    (openCount : ℕ) (cands : List ScalperV2.V2Candidate) (balance : ℚ)
    (h : cfg.DAILY_PROFIT_TARGET_PCT ≤ pnl) :
    ScalperV2.reporting_update_running cfg pnl running = false ∧
    ScalperV2.fast_loop_tick cfg false inputs
      = inputs.map (fun i => ScalperV2.V2Outcome.kept i.1) ∧
    ScalperV2.scan_loop_opens cfg false openCount cands balance = 0 := by
  refine ⟨?_, ?_, ?_⟩
  · simp [ScalperV2.reporting_update_running, h]
  · simp [ScalperV2.fast_loop_tick]
  · simp [ScalperV2.scan_loop_opens]

/-- C2 witness: the amended statement evaluated at the modelled
configuration, PnL 6 against target 5, one open position. -/
theorem C2_guard_halts_all_loops_w :
    ScalperV2.reporting_update_running ScalperV2.cfg0 6 true = false ∧
    ScalperV2.fast_loop_tick ScalperV2.cfg0 false [(c2pos, 94, 30)]
      = [ScalperV2.V2Outcome.kept c2pos] ∧
    ScalperV2.scan_loop_opens ScalperV2.cfg0 false 0 [c4cand] 1000 = 0 := by
  obtain ⟨h1, h2, h3⟩ :=
    C2_guard_halts_all_loops ScalperV2.cfg0 6 true [(c2pos, 94, 30)] 0 [c4cand]
      1000 (by norm_num [ScalperV2.cfg0])
  exact ⟨h1, h2, h3⟩

/-- C3 counterexample. A v2 position held 4000 seconds at an unchanged price:
the hard time-limit condition (4000 > 3600) and the stagnation condition
(4000 > 600 and ROI 0 < 2) are both true, neither the ROI stop nor the ROI
target is crossed, yet the tick closes with the stagnation reason, not the
time-limit reason: in `fast_loop` the stagnation rule is evaluated first. -/
theorem C3_stagnation_fires_first :
    ScalperV2.v2roi ScalperV2.cfg0 c3pos.side c3pos.entry_price 100 = 0 ∧
    ¬ ((0:ℚ) ≤ ScalperV2.cfg0.STOP_LOSS_ROI) ∧
    ¬ ((0:ℚ) ≥ ScalperV2.cfg0.TAKE_PROFIT_ROI) ∧
    ((4000:ℚ) > 600 ∧ (0:ℚ) < 2) ∧
    (4000:ℚ) > ScalperV2.cfg0.MAX_HOLD_SECONDS ∧
    ScalperV2.fastStep ScalperV2.cfg0 c3pos 100 4000 = .closed .stagnation ∧
    CloseReason.stagnation ≠ CloseReason.maxTimeLimit := by
  refine ⟨?_, ?_, ?_, ?_, ?_, ?_, ?_⟩
  · norm_num [ScalperV2.v2roi, c3pos, ScalperV2.cfg0]
  · norm_num [ScalperV2.cfg0]
  · norm_num [ScalperV2.cfg0]
  · norm_num
  · norm_num [ScalperV2.cfg0]
  · simp only [ScalperV2.fastStep, ScalperV2.v2roi, ScalperV2.v2newMax,
      ScalperV2.trailCond, ScalperV2.cfg0, c3pos]
    norm_num
  · exact fun h => CloseReason.noConfusion h

/-- C3 amended. In a tick where both the time-limit and the stagnation
condition hold while neither the ROI stop nor the ROI target is crossed and
the trailing rule does not trigger, the position closes fully with the
stagnation reason: in the v2 fast loop the stagnation rule (rule 4) is
evaluated before the max-time-limit rule (rule 5). -/
theorem C3_stagnation_before_time_limit (cfg : ScalperV2.V2Config)
    (pos : ScalperV2.V2Position) (price dur : ℚ) (hp : price ≠ 0)
    (hsl : ¬ ScalperV2.v2roi cfg pos.side pos.entry_price price ≤ cfg.STOP_LOSS_ROI)
    (htp : ¬ ScalperV2.v2roi cfg pos.side pos.entry_price price ≥ cfg.TAKE_PROFIT_ROI)
    (htr : ScalperV2.trailCond cfg
        (ScalperV2.v2newMax pos.max_roi (ScalperV2.v2roi cfg pos.side pos.entry_price price))
        (ScalperV2.v2roi cfg pos.side pos.entry_price price) = false)
    (hstag : dur > 600 ∧ ScalperV2.v2roi cfg pos.side pos.entry_price price < 2)
    (htime : dur > cfg.MAX_HOLD_SECONDS) :
    ScalperV2.fastStep cfg pos price dur = .closed .stagnation := by
  simp only [ScalperV2.fastStep, if_neg hp, if_neg hsl, if_neg htp]
  rw [if_neg (by simp [htr]), if_pos hstag]

/-- C3 witness: the amended statement evaluated at the modelled
configuration and the stalled position. -/
theorem C3_stagnation_before_time_limit_w :
    ScalperV2.fastStep ScalperV2.cfg0 c3pos 100 4000 = .closed .stagnation := by
  refine C3_stagnation_before_time_limit ScalperV2.cfg0 c3pos 100 4000
    (by norm_num) ?_ ?_ ?_ ?_ ?_
  · norm_num [ScalperV2.v2roi, c3pos, ScalperV2.cfg0]
  · norm_num [ScalperV2.v2roi, c3pos, ScalperV2.cfg0]
  · simp only [ScalperV2.trailCond, ScalperV2.v2newMax, ScalperV2.v2roi,
      c3pos, ScalperV2.cfg0]
    norm_num
  · constructor
    · norm_num
    · norm_num [ScalperV2.v2roi, c3pos, ScalperV2.cfg0]
  · norm_num [ScalperV2.cfg0]

/-- A fortress scanner pass entered with a positive slot count opens at most
that many positions: each accept decrements and the pass breaks at zero. -/
theorem scanOpens_le (accepts : List Bool) :
    ∀ slots : ℤ, 0 < slots → (Fortress.scanOpens slots accepts : ℤ) ≤ slots := by
  induction accepts with
  | nil => intro slots hs; simp [Fortress.scanOpens]; omega
  | cons a rest ih =>
      intro slots hs
      by_cases hA : a = true
      · subst hA
        by_cases h1 : slots - 1 = 0
        · simp [Fortress.scanOpens, h1]; omega
        · have h2 : 0 < slots - 1 := by omega
          have := ih (slots - 1) h2
          simp only [Fortress.scanOpens, if_pos rfl, if_neg h1]
          push_cast
          omega
      · have hA' : a = false := by
          cases a
          · rfl
          · exact absurd rfl hA
        subst hA'
        simpa [Fortress.scanOpens] using ih slots hs

/-- C4 counterexample. One v2 scan tick with the position cap set to one slot
and no position open: two candidates pass the score and size filters, the
tick opens both (it never decrements a slot count and never rechecks), and
the ledger ends with two open positions, above the cap. -/
theorem C4_v2_overshoots_cap :
    ScalperV2.v2ScanOpens cfg1 0 [c4cand, c4cand] 1000 = 2 ∧
    0 + 2 > cfg1.MAX_OPEN_POSITIONS := by
  constructor
  · simp only [ScalperV2.v2ScanOpens, ScalperV2.v2amount, cfg1, ScalperV2.cfg0,
      c4cand]
    norm_num [List.filter]
  · norm_num [cfg1, ScalperV2.cfg0]

/-- C4 amended. The bound holds for the fortress controller: `tick` computes
`slots = maxPositions - openCount`, scans only when positive, and its
scanners decrement and stop at zero, so a fortress scan tick never lifts the
ledger above `maxPositions`. The v2 `scan_loop_tick` enforces only the
tick-start gate: it opens nothing when the count is already at or above the
cap, but below the cap it opens one position per passing candidate with no
per-open decrement, so a single v2 tick can exceed the cap. -/
theorem C4_slot_bounds (slots : ℤ) (accepts : List Bool) (hs : 0 < slots)
    (maxPos openCount : ℕ) (hoc : openCount ≤ maxPos) (accepts2 : List Bool)
    (cfg : ScalperV2.V2Config) (openCount2 : ℕ)
    (cands : List ScalperV2.V2Candidate) (balance : ℚ)
    (hfull : cfg.MAX_OPEN_POSITIONS ≤ openCount2) :
    (Fortress.scanOpens slots accepts : ℤ) ≤ slots ∧
    openCount + Fortress.tickOpens maxPos openCount accepts2 ≤ maxPos ∧
    ScalperV2.v2ScanOpens cfg openCount2 cands balance = 0 := by
  refine ⟨scanOpens_le accepts slots hs, ?_, ?_⟩
  · unfold Fortress.tickOpens
    by_cases h : (0 : ℤ) < (maxPos : ℤ) - (openCount : ℤ)
    · have hb := scanOpens_le accepts2 ((maxPos : ℤ) - (openCount : ℤ)) h
      simp only [if_pos h]
      omega
    · simp only [if_neg h]
      omega
  · simp [ScalperV2.v2ScanOpens, hfull]

/-- C4 witness: the amended statement evaluated with two fortress slots,
three accepting candidates, and a v2 tick already at its cap. -/
theorem C4_slot_bounds_w :
    (Fortress.scanOpens 2 [true, true, true] : ℤ) ≤ 2 ∧
    1 + Fortress.tickOpens 3 1 [true, true, true] ≤ 3 ∧
    ScalperV2.v2ScanOpens cfg1 1 [c4cand] 1000 = 0 := by
  exact C4_slot_bounds 2 [true, true, true] (by norm_num) 3 1
    (by norm_num) [true, true, true] cfg1 1 [c4cand] 1000
    (by norm_num [cfg1, ScalperV2.cfg0])

/-- C6 counterexample. At entry 100, stop 99, balance 10000 on the trend
path, the opened quote size is the raw 30000 = (10000 * 3%) / 1%, which
exceeds the whole balance — so it was not clamped to `balance * fraction` for
any fraction at most one: the trend path applies no exposure cap. -/
theorem C6_trend_size_unclamped :
    Fortress.sizeGlobal 10000 100 99 3 = Except.ok 30000 ∧
    ¬ ((30000:ℚ) ≤ 10000) := by
  constructor
  · simp only [Fortress.sizeGlobal]
    rw [show |(100:ℚ) - 99| = 1 from by norm_num]
    norm_num
  · norm_num

/-- C6 amended. Only the scalp path clamps: `scan_tokyo` sizes at 0.5 percent
account risk over the stop distance and caps the result at 20 percent of
balance (at entry 100, stop 99, balance 10000 the raw 5000 is clamped to
2000), while `scan_global` sizes at `RISK_PER_TRADE_PCT` percent risk over
the stop distance and opens the raw quotient with no exposure cap. -/
theorem C6_sizing_formulas (balance entry sl rpt : ℚ)
    (h : |entry - sl| / entry ≠ 0) :
    Fortress.sizeTokyo balance entry sl
      = some (min (balance * (5/1000) / (|entry - sl| / entry))
              (balance * (2/10))) ∧
    Fortress.sizeGlobal balance entry sl rpt
      = Except.ok (balance * (rpt/100) / (|entry - sl| / entry)) ∧
    Fortress.sizeTokyo 10000 100 99 = some 2000 := by
  refine ⟨?_, ?_, ?_⟩
  · simp only [Fortress.sizeTokyo]
    rw [if_neg h]
  · simp only [Fortress.sizeGlobal]
    rw [if_neg h]
  · simp only [Fortress.sizeTokyo]
    rw [show |(100:ℚ) - 99| = 1 from by norm_num]
    norm_num

/-- C6 witness: the amended statement evaluated at entry 100, stop 99,
balance 10000, trend risk 3 percent. -/
theorem C6_sizing_formulas_w :
    Fortress.sizeTokyo 10000 100 99
      = some (min ((10000:ℚ) * (5/1000) / (|(100:ℚ) - 99| / 100))
              ((10000:ℚ) * (2/10))) ∧
    Fortress.sizeGlobal 10000 100 99 3
      = Except.ok ((10000:ℚ) * (3/100) / (|(100:ℚ) - 99| / 100)) ∧
    Fortress.sizeTokyo 10000 100 99 = some 2000 := by
  exact C6_sizing_formulas 10000 100 99 3
    (by rw [show |(100:ℚ) - 99| = 1 from by norm_num]; norm_num)

/-- C7 counterexample. A LONG trend position, entry 100, stop 95, target 110,
amount 10, harvested at price 102 (ROI 2 percent): the tick halves the amount
and sets both flags as claimed, but the stop does not end the tick at the
entry price — the harvester moves it to 100 and the same tick's trailing rule
(enabled by the fresh breakeven lock) immediately drags it to
102 - 1.02 = 100.98. -/
theorem C7_stop_beyond_entry :
    Fortress.managePosition c7pos 102 5 = .keep c7pos2 ∧
    c7pos2.sl ≠ c7pos.entry_price := by
  constructor
  · simp only [Fortress.managePosition, Fortress.trendManage, Fortress.stopHit,
      Fortress.tpHit, Fortress.harvestStep, Fortress.trailStep,
      Fortress.pnl_pct, c7pos, c7pos2]
    norm_num
    exact fun h => StrategyTag.noConfusion h
  · norm_num [c7pos, c7pos2]

/-- C7 amended. On a trend-profile position with `partial_taken` unset whose
PnL reaches the +1.2 percent harvest threshold in a tick where neither the
hard stop nor the hard target fired, the tick halves the amount, sets
`partial_taken` and the breakeven lock, and moves the stop to the entry price
— and then the same tick's trailing rule, now enabled, immediately re-moves
the stop to one percent behind the current price, which is strictly beyond
the entry in the favorable direction. The position stays open with
`size_after < size_before`, both flags set, and the stop at or favorably
beyond the entry (strictly beyond, by the trailing update). -/
theorem C7_harvest_tick (pos : Fortress.Position) (price d : ℚ)
    (hst : pos.strategy ≠ StrategyTag.TOKYO_SCALP) (hp : price ≠ 0)
    (hpt : pos.partial_taken = false)
    (he : 0 < pos.entry_price) (ha : 0 < pos.amount)
    (hroi : 12/1000 ≤ Fortress.pnl_pct pos.side pos.entry_price price)
    (hstop : Fortress.stopHit pos price = false)
    (htp : Fortress.tpHit pos price = false) :
    Fortress.managePosition pos price d
      = .keep (Fortress.trailStep (Fortress.harvestStep pos price) price) ∧
    (Fortress.trailStep (Fortress.harvestStep pos price) price).amount
      = pos.amount * (1/2) ∧
    (Fortress.trailStep (Fortress.harvestStep pos price) price).amount
      < pos.amount ∧
    (Fortress.trailStep (Fortress.harvestStep pos price) price).partial_taken
      = true ∧
    (Fortress.trailStep (Fortress.harvestStep pos price) price).be_locked
      = true ∧
    (pos.side = Side.LONG →
      (Fortress.trailStep (Fortress.harvestStep pos price) price).sl
          = price - price * (1/100) ∧
      pos.entry_price
          < (Fortress.trailStep (Fortress.harvestStep pos price) price).sl) ∧
    (pos.side = Side.SHORT →
      (Fortress.trailStep (Fortress.harvestStep pos price) price).sl
          = price + price * (1/100) ∧
      (Fortress.trailStep (Fortress.harvestStep pos price) price).sl
          < pos.entry_price) := by
  obtain ⟨s, e, sl0, tp0, am, st, pt, bl⟩ := pos
  simp only at hst hpt he ha hroi hstop htp
  subst hpt
  have hmain : Fortress.managePosition ⟨s, e, sl0, tp0, am, st, false, bl⟩ price d
      = .keep (Fortress.trailStep
          (Fortress.harvestStep ⟨s, e, sl0, tp0, am, st, false, bl⟩ price) price) := by
    unfold Fortress.managePosition Fortress.trendManage
    rw [if_neg hp, if_neg hst, if_neg (by simp [hstop]), if_neg (by simp [htp])]
  have hh : Fortress.harvestStep ⟨s, e, sl0, tp0, am, st, false, bl⟩ price
      = ⟨s, e, e, tp0, am - am * (1/2), st, true, true⟩ := by
    unfold Fortress.harvestStep
    rw [if_pos ⟨rfl, hroi⟩]
  cases s with
  | LONG =>
      have hroi' : 12/1000 ≤ (price - e) / e := by
        simpa [Fortress.pnl_pct] using hroi
      have hpe : e * (1012/1000) ≤ price := by
        rw [le_div_iff he] at hroi'
        linarith
      have htr : e < price - price * (1/100) := by linarith
      have ht : Fortress.trailStep ⟨Side.LONG, e, e, tp0, am - am * (1/2), st, true, true⟩ price
          = ⟨Side.LONG, e, price - price * (1/100), tp0, am - am * (1/2), st, true, true⟩ := by
        unfold Fortress.trailStep
        simp only [if_true]
        rw [if_pos htr]
      rw [hmain, hh, ht]
      refine ⟨rfl, by ring, by simp only; linarith, rfl, rfl,
        fun _ => ⟨rfl, htr⟩, fun hcon => Side.noConfusion hcon⟩
  | SHORT =>
      have hroi' : 12/1000 ≤ (e - price) / e := by
        simpa [Fortress.pnl_pct] using hroi
      have hpe : price ≤ e * (988/1000) := by
        rw [le_div_iff he] at hroi'
        linarith
      have htr : price + price * (1/100) < e := by linarith
      have ht : Fortress.trailStep ⟨Side.SHORT, e, e, tp0, am - am * (1/2), st, true, true⟩ price
          = ⟨Side.SHORT, e, price + price * (1/100), tp0, am - am * (1/2), st, true, true⟩ := by
        unfold Fortress.trailStep
        simp only [if_true]
        rw [if_pos htr]
      rw [hmain, hh, ht]
      refine ⟨rfl, by ring, by simp only; linarith, rfl, rfl,
        fun hcon => Side.noConfusion hcon, fun _ => ⟨rfl, htr⟩⟩

/-- C7 witness: the amended statement evaluated on a SHORT trend position,
entry 100, stop 105, target 90, amount 8, at price 98 (PnL +2 percent). -/
theorem C7_harvest_tick_w :
    Fortress.managePosition c7wpos 98 1
      = .keep (Fortress.trailStep (Fortress.harvestStep c7wpos 98) 98) ∧
    (Fortress.trailStep (Fortress.harvestStep c7wpos 98) 98).amount
      = c7wpos.amount * (1/2) ∧
    (Fortress.trailStep (Fortress.harvestStep c7wpos 98) 98).amount
      < c7wpos.amount ∧
    (Fortress.trailStep (Fortress.harvestStep c7wpos 98) 98).partial_taken
      = true ∧
    (Fortress.trailStep (Fortress.harvestStep c7wpos 98) 98).be_locked
      = true ∧
    (c7wpos.side = Side.LONG →
      (Fortress.trailStep (Fortress.harvestStep c7wpos 98) 98).sl
          = 98 - 98 * (1/100) ∧
      c7wpos.entry_price
          < (Fortress.trailStep (Fortress.harvestStep c7wpos 98) 98).sl) ∧
    (c7wpos.side = Side.SHORT →
      (Fortress.trailStep (Fortress.harvestStep c7wpos 98) 98).sl
          = 98 + 98 * (1/100) ∧
      (Fortress.trailStep (Fortress.harvestStep c7wpos 98) 98).sl
          < c7wpos.entry_price) := by
  refine C7_harvest_tick c7wpos 98 1 ?_ ?_ rfl ?_ ?_ ?_ ?_ ?_
  · simp [c7wpos]
  · norm_num
  · norm_num [c7wpos]
  · norm_num [c7wpos]
  · norm_num [Fortress.pnl_pct, c7wpos]
  · simp only [Fortress.stopHit, c7wpos]
    norm_num
  · simp only [Fortress.tpHit, c7wpos]
    norm_num

/-- Favorable stop ordering is reflexive. -/
theorem slFav_refl (s : Side) (a : ℚ) : Fortress.slFav s a a := by
  cases s <;> simp [Fortress.slFav]

/-- Favorable stop ordering is transitive. -/
theorem slFav_trans {s : Side} {a b c : ℚ} (h1 : Fortress.slFav s a b)
    (h2 : Fortress.slFav s b c) : Fortress.slFav s a c := by
  cases s with
  | LONG =>
      simp only [Fortress.slFav] at *
      linarith
  | SHORT =>
      simp only [Fortress.slFav] at *
      linarith

/-- The trailing step only moves the stop in the favorable direction and
touches no other field. -/
theorem trailStep_props (pos : Fortress.Position) (price : ℚ) :
    Fortress.slFav pos.side pos.sl (Fortress.trailStep pos price).sl ∧
    (Fortress.trailStep pos price).side = pos.side ∧
    (Fortress.trailStep pos price).partial_taken = pos.partial_taken ∧
    (Fortress.trailStep pos price).be_locked = pos.be_locked := by
  obtain ⟨s, e, sl0, tp0, am, st, pt, bl⟩ := pos
  cases bl with
  | false => cases s <;> simp [Fortress.trailStep, Fortress.slFav]
  | true =>
      cases s with
      | LONG =>
          by_cases h : price - price * (1/100) > sl0
          · simp only [Fortress.trailStep, if_true, if_pos h]
            simp [Fortress.slFav]
            linarith
          · simp only [Fortress.trailStep, if_true, if_neg h]
            simp [Fortress.slFav]
      | SHORT =>
          by_cases h : price + price * (1/100) < sl0
          · simp only [Fortress.trailStep, if_true, if_pos h]
            simp [Fortress.slFav]
            linarith
          · simp only [Fortress.trailStep, if_true, if_neg h]
            simp [Fortress.slFav]

/-- One managed tick on a breakeven-locked position with the code's flag
discipline: if the position stays open, its side is unchanged, both flags
stay set, and the stop can only move favorably (the harvester is disabled by
`partial_taken`; only the trailing rule touches the stop). -/
theorem manage_keep_locked (pos p2 : Fortress.Position) (price d : ℚ)
    (hwf : Fortress.flagsWF pos) (hbe : pos.be_locked = true)
    (h : Fortress.managePosition pos price d = .keep p2) :
    p2.side = pos.side ∧ p2.be_locked = true ∧ p2.partial_taken = true ∧
    Fortress.slFav pos.side pos.sl p2.sl := by
  have hpt : pos.partial_taken = true := hwf hbe
  unfold Fortress.managePosition at h
  by_cases hp : price = 0
  · rw [if_pos hp] at h
    injection h with h2
    subst h2
    exact ⟨rfl, hbe, hpt, slFav_refl _ _⟩
  · rw [if_neg hp] at h
    by_cases hs : pos.strategy = StrategyTag.TOKYO_SCALP
    · rw [if_pos hs] at h
      unfold Fortress.scalpManage at h
      split_ifs at h
      injection h with h2
      subst h2
      exact ⟨rfl, hbe, hpt, slFav_refl _ _⟩
    · rw [if_neg hs] at h
      unfold Fortress.trendManage at h
      split_ifs at h
      have hhv : Fortress.harvestStep pos price = pos := by
        unfold Fortress.harvestStep
        rw [if_neg (by simp [hpt])]
      rw [hhv] at h
      injection h with h2
      subst h2
      obtain ⟨t1, t2, t3, t4⟩ := trailStep_props pos price
      refine ⟨t2, ?_, ?_, t1⟩
      · rw [t4]
        exact hbe
      · rw [t3]
        exact hpt

/-- A run of ticks started on a closed position stays closed. -/
theorem runTicks_none (ts : List (ℚ × ℚ)) : Fortress.runTicks none ts = none := by
  induction ts with
  | nil => rfl
  | cons t ts ih => simpa [Fortress.runTicks, Fortress.stepOpt, List.foldl] using ih

/-- C8. Once a position's breakeven lock is set (which the code always does
together with `partial_taken`, the discipline `flagsWF`), the stop price is
monotone in the favorable direction over any run of supervisor ticks that
leaves the position open: non-decreasing for a LONG, non-increasing for a
SHORT. No rule moves the stop adversely after the lock. -/
theorem C8_stop_monotone_after_lock (pos : Fortress.Position)
    (ts : List (ℚ × ℚ)) (p2 : Fortress.Position)
    (hwf : Fortress.flagsWF pos) (hbe : pos.be_locked = true)
    (h : Fortress.runTicks (some pos) ts = some p2) :
    Fortress.slFav pos.side pos.sl p2.sl := by
  induction ts generalizing pos with
  | nil =>
      simp only [Fortress.runTicks, List.foldl] at h
      injection h with h2
      subst h2
      exact slFav_refl _ _
  | cons t ts ih =>
      simp only [Fortress.runTicks, List.foldl] at h
      cases hm : Fortress.managePosition pos t.1 t.2 with
      | fullClose r =>
          rw [show Fortress.stepOpt (some pos) t = none from by
            simp [Fortress.stepOpt, hm]] at h
          have hnone : Fortress.runTicks none ts = none := runTicks_none ts
          simp only [Fortress.runTicks] at hnone
          rw [hnone] at h
          exact Option.noConfusion h
      | keep q =>
          rw [show Fortress.stepOpt (some pos) t = some q from by
            simp [Fortress.stepOpt, hm]] at h
          obtain ⟨h1, h2, h3, h4⟩ := manage_keep_locked pos q t.1 t.2 hwf hbe hm
          have hrest := ih q (fun _ => h3) h2 h
          rw [h1] at hrest
          exact slFav_trans h4 hrest

/-- C8 witness: a breakeven-locked LONG at entry 100 with stop 100 run
through one tick at price 103 trails the stop to 101.97, favorably above the
initial stop. -/
theorem C8_stop_monotone_after_lock_w :
    Fortress.slFav c8pos.side c8pos.sl c8pos2.sl := by
  have hm : Fortress.managePosition c8pos 103 1 = .keep c8pos2 := by
    simp only [Fortress.managePosition, Fortress.trendManage, Fortress.stopHit,
      Fortress.tpHit, Fortress.harvestStep, Fortress.trailStep,
      Fortress.pnl_pct, c8pos, c8pos2]
    norm_num
    exact fun h => StrategyTag.noConfusion h
  refine C8_stop_monotone_after_lock c8pos [(103, 1)] c8pos2
    (fun _ => rfl) rfl ?_
  simp [Fortress.runTicks, Fortress.stepOpt, List.foldl, hm]

/-- C9. Every scalp signal built on a positive latest close has its fixed
stop and target on the correct side of the entry (LONG: stop < entry <
target; SHORT: target < entry < stop), and every v2 scalp open priced from a
positive close with a sane configuration (nonzero ROI stop and target,
positive leverage) likewise places the stop and target on the correct side
for each direction. -/
theorem C9_stop_target_sides (p rsi up lo : ℚ) (sig : Fortress.Signal)
    (hp : 0 < p) (hA : Fortress.analyze p rsi up lo = some sig)
    (cfg : ScalperV2.V2Config) (price : ℚ) (hpr : 0 < price)
    (hsl : cfg.STOP_LOSS_ROI ≠ 0) (htp : cfg.TAKE_PROFIT_ROI ≠ 0)
    (hlev : 0 < cfg.LEVERAGE) :
    ((sig.direction = Side.LONG →
        sig.sl < sig.entry_price ∧ sig.entry_price < sig.tp) ∧
     (sig.direction = Side.SHORT →
        sig.tp < sig.entry_price ∧ sig.entry_price < sig.sl)) ∧
    (ScalperV2.scanSl cfg Side.LONG price < price ∧
     price < ScalperV2.scanTp cfg Side.LONG price) ∧
    (ScalperV2.scanTp cfg Side.SHORT price < price ∧
     price < ScalperV2.scanSl cfg Side.SHORT price) := by
  refine ⟨?_, ?_⟩
  · unfold Fortress.analyze at hA
    by_cases h1 : p ≤ lo ∧ rsi < 30
    · rw [if_pos h1] at hA
      injection hA with h3
      subst h3
      refine ⟨fun _ => ⟨?_, ?_⟩, fun hcon => Side.noConfusion hcon⟩
      · show p * (996/1000) < p
        linarith
      · show p < p * (1006/1000)
        linarith
    · rw [if_neg h1] at hA
      by_cases h2 : p ≥ up ∧ rsi > 70
      · rw [if_pos h2] at hA
        injection hA with h3
        subst h3
        refine ⟨fun hcon => Side.noConfusion hcon, fun _ => ⟨?_, ?_⟩⟩
        · show p * (994/1000) < p
          linarith
        · show p < p * (1004/1000)
          linarith
      · rw [if_neg h2] at hA
        exact Option.noConfusion hA
  · have hm : 0 < |cfg.STOP_LOSS_ROI / cfg.LEVERAGE / 100| := by
      refine abs_pos.mpr (div_ne_zero ?_ (by norm_num))
      exact div_ne_zero hsl (ne_of_gt hlev)
    have ht2 : 0 < |cfg.TAKE_PROFIT_ROI| / cfg.LEVERAGE / 100 :=
      div_pos (div_pos (abs_pos.mpr htp) hlev) (by norm_num)
    unfold ScalperV2.scanSl ScalperV2.scanTp
    simp only
    refine ⟨⟨?_, ?_⟩, ?_, ?_⟩ <;>
      nlinarith [mul_pos hpr hm, mul_pos hpr ht2]

/-- C9 witness: the theorem evaluated on the SHORT signal from close 100,
RSI 80, upper band 100, and on a v2 open priced from close 50 under the
modelled configuration. -/
theorem C9_stop_target_sides_w :
    ((c9sig.direction = Side.LONG →
        c9sig.sl < c9sig.entry_price ∧ c9sig.entry_price < c9sig.tp) ∧
     (c9sig.direction = Side.SHORT →
        c9sig.tp < c9sig.entry_price ∧ c9sig.entry_price < c9sig.sl)) ∧
    (ScalperV2.scanSl ScalperV2.cfg0 Side.LONG 50 < 50 ∧
     (50:ℚ) < ScalperV2.scanTp ScalperV2.cfg0 Side.LONG 50) ∧
    (ScalperV2.scanTp ScalperV2.cfg0 Side.SHORT 50 < 50 ∧
     (50:ℚ) < ScalperV2.scanSl ScalperV2.cfg0 Side.SHORT 50) := by
  refine C9_stop_target_sides 100 80 100 90 c9sig (by norm_num) ?_
    ScalperV2.cfg0 50 (by norm_num) ?_ ?_ ?_
  · norm_num [Fortress.analyze, c9sig]
  · norm_num [ScalperV2.cfg0]
  · norm_num [ScalperV2.cfg0]
  · norm_num [ScalperV2.cfg0]

/-- C10. A zero current price (the fetch-failure sentinel) makes both the
fortress manager and the v2 fast loop skip the position entirely: no close is
issued and every field is left unchanged. -/
theorem C10_zero_price_skips (pos : Fortress.Position) (d : ℚ)
    (cfg : ScalperV2.V2Config) (q : ScalperV2.V2Position) (d2 : ℚ) :
    Fortress.managePosition pos 0 d = .keep pos ∧
    ScalperV2.fastStep cfg q 0 d2 = .kept q := by
  constructor <;> simp [Fortress.managePosition, ScalperV2.fastStep]
